import Mathlib

/-!
Verification development for the `stayup` presence-tracking service
(`src/main.rs`).

The program has three components:

* `handle_client` — the per-connection Session state machine (greeting,
  then a monitoring loop driven by read/probe outcomes, then a `-1` event);
* `manage_wakelock` — the Presence Coordinator, a sequential consumer of
  the `+1`/`-1` events that keeps `num_clients` and drives the wakelock
  sentinel file (the Lock Resource);
* `listen_for_clients` — the Listener, which spawns one Session per
  accepted connection.

The shallow embedding below models each of these as pure functions over
explicit oracles for the I/O outcomes (read results, probe-write results,
filesystem results, channel receive results), plus a small-step transition
system for the reachable states of the whole Coordinator/Sessions system.
-/

/-! ## Session model (`handle_client`, src/main.rs lines 54-92) -/

/-- Outcome of one `stream.read(&mut buffer[..])` call: `Ok(n)` with the
number of bytes read, or `Err(_)`; the `kind` of an error (timeout,
connection reset, ...) is carried so that we can state that the code never
inspects it. -/
inductive ReadOutcome where
  | bytes (n : Nat)
  | fail (kind : Nat)
deriving DecidableEq

/-- Outcome of the probe `stream.write(".".as_bytes())` call. -/
inductive WriteOutcome where
  | ok
  | fail
deriving DecidableEq

/-- The environment's answers for one monitoring-loop iteration: the read
outcome, and the probe-write outcome (consulted by the code only when the
read failed). -/
structure SessionStep where
  read : ReadOutcome
  probe : WriteOutcome
deriving DecidableEq

/-- Why the monitoring loop stopped: `Ok(0)` read (peer closed), failed
probe write (socket error), or the `while staleness <= 5` condition
becoming false. -/
inductive ExitCause where
  | peerClosed
  | probeFailed
  | stale
deriving DecidableEq

/-- Result of running the monitoring loop against a finite prefix of
environment answers: either the loop exited (with its cause), or the input
was exhausted while the loop was still going to attempt another read
(`running` carries the current `staleness`). -/
inductive MonitorResult where
  | exited (c : ExitCause)
  | running (staleness : Nat)
deriving DecidableEq

/-- Observable actions performed by a Session, in program order: the
greeting write, a channel send of a `+1`/`-1` event, a read attempt, a
probe write. -/
inductive SessAction where
  | greet
  | sendEvent (v : Int)
  | readAttempt
  | probe
deriving DecidableEq

/-- The monitoring loop of `handle_client`:

```rust
while staleness <= 5 {
    match stream.read(&mut buffer[..]) {
        Ok(0) => break,
        Ok(_) => { staleness = 0; },
        Err(_) => match stream.write(".".as_bytes()) {
            Ok(_) => staleness += 1,
            _ => break,
        },
    }
}
```

Returns the list of actions performed together with the loop's result. -/
def monitorRun (staleness : Nat) (steps : List SessionStep) :
    List SessAction × MonitorResult :=
  if staleness ≤ 5 then
    match steps with
    | [] => ([], MonitorResult.running staleness)
    | s :: rest =>
      match s.read with
      | ReadOutcome.bytes 0 =>
        ([SessAction.readAttempt], MonitorResult.exited ExitCause.peerClosed)
      | ReadOutcome.bytes (_ + 1) =>
        let r := monitorRun 0 rest
        (SessAction.readAttempt :: r.1, r.2)
      | ReadOutcome.fail _ =>
        match s.probe with
        | WriteOutcome.ok =>
          let r := monitorRun (staleness + 1) rest
          (SessAction.readAttempt :: SessAction.probe :: r.1, r.2)
        | WriteOutcome.fail =>
          ([SessAction.readAttempt, SessAction.probe],
            MonitorResult.exited ExitCause.probeFailed)
  else ([], MonitorResult.exited ExitCause.stale)

/-- The monitoring loop's result alone. -/
def runMonitor (staleness : Nat) (steps : List SessionStep) : MonitorResult :=
  (monitorRun staleness steps).2

/-- The full action trace of one `handle_client` execution.  `setupOk`
says whether the four unwrapped setup calls (`peer_addr`,
`set_read_timeout`, `set_write_timeout`, the `"hi"` greeting write) all
succeeded; if any fails the thread panics before `tx.send(1)`, so no
events are emitted.  After a successful setup the session sends `+1`,
runs the monitoring loop, and sends `-1` once the loop has exited. -/
def sessionActions (setupOk : Bool) (steps : List SessionStep) : List SessAction :=
  if setupOk then
    SessAction.greet :: SessAction.sendEvent 1 ::
      ((monitorRun 0 steps).1 ++
        (match (monitorRun 0 steps).2 with
          | MonitorResult.exited _ => [SessAction.sendEvent (-1)]
          | MonitorResult.running _ => []))
  else []

/-- Project a channel event out of an action. -/
def eventOf : SessAction → Option Int
  | SessAction.sendEvent v => some v
  | _ => none

/-- The sequence of `+1`/`-1` events a Session emits to the Coordinator. -/
def sessionEvents (setupOk : Bool) (steps : List SessionStep) : List Int :=
  (sessionActions setupOk steps).filterMap eventOf

/-- One monitoring-loop iteration in which the read timed out (error kind
0) and the probe write succeeded: the all-idle environment of the
timeout-accumulation scenario. -/
def idleCycle : SessionStep :=
  { read := ReadOutcome.fail 0, probe := WriteOutcome.ok }

/-! ## Coordinator model (`manage_wakelock`, src/main.rs lines 22-43) -/

/-- Coordinator state: the `num_clients` counter (an `i64` in the source;
its values stay tiny, so plain `Int` is faithful) and whether the wakelock
sentinel file currently exists. -/
structure CoordState where
  num_clients : Int
  wakelock : Bool
deriving DecidableEq

/-- The branch chosen by the `match num_clients` in `manage_wakelock`:
`0 => remove_file` (release), `n if n > 0 => create` (acquire),
`_ => ` fatal negative-count violation. -/
inductive CoordAction where
  | release
  | acquire
  | fatalNegative
deriving DecidableEq

/-- The decision table of `manage_wakelock`, keyed on the updated
`num_clients`, mirroring the order of the Rust `match` arms. -/
def coordAction (num_clients : Int) : CoordAction :=
  if num_clients = 0 then CoordAction.release
  else if 0 < num_clients then CoordAction.acquire
  else CoordAction.fatalNegative

/-- Outcome of the `remove_file` call performed by the release arm; the
filesystem is external, so its success/failure is an environment input.
(The acquire arm needs no oracle: its open call fails deterministically,
see `processEvent`.) -/
inductive FsOutcome where
  | ok
  | err
deriving DecidableEq

/-- Result of one Coordinator loop iteration: either the loop continues
with an updated state, or the process aborts (an `unwrap` panic in the
main thread, or the negative-count `panic!`). -/
inductive CoordOutcome where
  | next (s : CoordState)
  | fatal
deriving DecidableEq

/-- One iteration of the `manage_wakelock` loop body applied to an event
`e` received from the channel: `num_clients += e`, then the decision
table.  In the release arm, `remove_file(...).unwrap()` aborts the
process on a filesystem error.  The acquire arm runs
`OpenOptions::new().create(true).open(WAKELOCK_FILE).unwrap()`: the
options set `create` but no read/write/append access mode, and `open`
rejects that combination with `Err(InvalidInput)` before touching the
filesystem, so the arm's unwrap always panics — it never completes and
never creates the sentinel. -/
def processEvent (s : CoordState) (e : Int) (fs : FsOutcome) : CoordOutcome :=
  let n := s.num_clients + e
  match coordAction n with
  | CoordAction.release =>
    (match fs with
      | FsOutcome.ok => CoordOutcome.next { num_clients := n, wakelock := false }
      | FsOutcome.err => CoordOutcome.fatal)
  | CoordAction.acquire => CoordOutcome.fatal
  | CoordAction.fatalNegative => CoordOutcome.fatal

/-! ### Startup cleanup (src/main.rs lines 23-26) -/

/-- Result of the startup `std::fs::remove_file(WAKELOCK_FILE)` call. -/
inductive RemoveResult where
  | removed
  | errNotFound
  | errOther
deriving DecidableEq

/-- Filesystem semantics of `remove_file`: if the sentinel is absent the
call fails with `NotFound`; if present it either removes the file or
fails for some external reason (`externalFail`). -/
def removeFileResult (present externalFail : Bool) : RemoveResult :=
  if present then
    (if externalFail then RemoveResult.errOther else RemoveResult.removed)
  else RemoveResult.errNotFound

/-- Whether the sentinel file is still present after the `remove_file`
call described by `removeFileResult`. -/
def lockAfterRemove (present externalFail : Bool) : Bool :=
  present && externalFail

/-- Coordinator state right after startup, plus whether startup aborted
the process. -/
structure StartupState where
  num_clients : Int
  wakelock : Bool
  aborted : Bool
deriving DecidableEq

/-- The startup of `manage_wakelock`:

```rust
let mut num_clients = 0i64;
let _ = std::fs::remove_file(WAKELOCK_FILE);
```

The removal result is bound to `_` and discarded, so startup never aborts
whatever the removal outcome; the counter starts at 0; the sentinel is
gone afterwards only if it was absent already or the removal succeeded. -/
def startupCoordinator (present externalFail : Bool) : StartupState :=
  { num_clients := 0
    wakelock := lockAfterRemove present externalFail
    aborted := false }

/-! ### Blocking receive (src/main.rs line 30, `rx.recv().unwrap()`) -/

/-- Outcome of `rx.recv()`: a message, or the `RecvError` returned when
the channel is empty and every `Sender` has been dropped. -/
inductive RecvOutcome where
  | msg (v : Int)
  | disconnected
deriving DecidableEq

/-- Modelled std `mpsc::Receiver::recv` semantics: return a queued
message if one is pending; with an empty queue, fail with `disconnected`
when no senders remain, and otherwise block (`none` here: no outcome is
produced yet). -/
def recvResult (queue : List Int) (senders : Nat) : Option RecvOutcome :=
  match queue with
  | v :: _ => some (RecvOutcome.msg v)
  | [] => if senders = 0 then some RecvOutcome.disconnected else none

/-- The number of live `Sender` handles: the Listener holds the original
`tx` until its accept loop returns, and each live Session holds one
clone. -/
def activeSenders (listenerRunning : Bool) (liveSessions : Nat) : Nat :=
  (if listenerRunning then 1 else 0) + liveSessions

/-- One iteration of the Coordinator loop including the receive:
`num_clients += rx.recv().unwrap()` panics in the main thread — aborting
the process — when `recv` fails, and otherwise processes the event. -/
def coordLoopStep (s : CoordState) (r : RecvOutcome) (fs : FsOutcome) :
    CoordOutcome :=
  match r with
  | RecvOutcome.msg v => processEvent s v fs
  | RecvOutcome.disconnected => CoordOutcome.fatal

/-! ## Whole-system transition model

Reachable states of the Coordinator consuming any interleaving of the
events produced by the Sessions, at the granularity of one fully
processed event per step.  Each Session's event sequence is a prefix of
`[+1, -1]` (theorem `sessionEvents_cases` below), so a Session is, from
the Coordinator's point of view, always in one of three phases. -/

/-- How much of its `[+1, -1]` event sequence a Session has had consumed
by the Coordinator: nothing yet, the `+1` only, or both events. -/
inductive Phase where
  | silent
  | plusEmitted
  | minusEmitted
deriving DecidableEq

/-- The number of Sessions whose `+1` has been consumed but whose `-1`
has not. -/
def countActive : List Phase → Nat
  | [] => 0
  | Phase.plusEmitted :: rest => countActive rest + 1
  | _ :: rest => countActive rest

/-- A whole-system state: the phase of every Session spawned so far and
the Coordinator's `num_clients` counter. -/
structure SysState where
  phases : List Phase
  count : Int
deriving DecidableEq

/-- System transitions: the Listener spawns a fresh Session (no events
yet), or the Coordinator consumes the next event of some Session — its
`+1` (adding 1 to the counter) or, after that, its `-1` (subtracting
1). -/
inductive SysStep : SysState → SysState → Prop where
  | spawn (l : List Phase) (c : Int) :
      SysStep ⟨l, c⟩ ⟨l ++ [Phase.silent], c⟩
  | consumePlus (l₁ l₂ : List Phase) (c : Int) :
      SysStep ⟨l₁ ++ Phase.silent :: l₂, c⟩
        ⟨l₁ ++ Phase.plusEmitted :: l₂, c + 1⟩
  | consumeMinus (l₁ l₂ : List Phase) (c : Int) :
      SysStep ⟨l₁ ++ Phase.plusEmitted :: l₂, c⟩
        ⟨l₁ ++ Phase.minusEmitted :: l₂, c - 1⟩

/-- Process start: no Sessions, `num_clients = 0`. -/
def initState : SysState := ⟨[], 0⟩

/-- The reachable system states. -/
def Reachable (s : SysState) : Prop :=
  Relation.ReflTransGen SysStep initState s

/-! ## Helper lemmas -/

/-- Unfolding of one monitoring-loop iteration while the loop guard
`staleness <= 5` holds. -/
lemma monitorRun_cons (st : Nat) (h : st ≤ 5) (s : SessionStep)
    (rest : List SessionStep) :
    monitorRun st (s :: rest) =
      match s.read with
      | ReadOutcome.bytes 0 =>
        ([SessAction.readAttempt], MonitorResult.exited ExitCause.peerClosed)
      | ReadOutcome.bytes (_ + 1) =>
        (SessAction.readAttempt :: (monitorRun 0 rest).1,
          (monitorRun 0 rest).2)
      | ReadOutcome.fail _ =>
        match s.probe with
        | WriteOutcome.ok =>
          (SessAction.readAttempt :: SessAction.probe ::
              (monitorRun (st + 1) rest).1,
            (monitorRun (st + 1) rest).2)
        | WriteOutcome.fail =>
          ([SessAction.readAttempt, SessAction.probe],
            MonitorResult.exited ExitCause.probeFailed) := by
  rw [monitorRun, if_pos h]

/-- The monitoring loop performs no channel sends: its action trace
contains reads and probes only. -/
lemma monitorRun_no_events (steps : List SessionStep) :
    ∀ st, ((monitorRun st steps).1).filterMap eventOf = [] := by
  induction steps with
  | nil =>
    intro st
    rw [monitorRun]
    split <;> simp
  | cons s rest ih =>
    intro st
    by_cases h : st ≤ 5
    · rw [monitorRun_cons st h]
      obtain ⟨r, p⟩ := s
      cases r with
      | bytes n =>
        cases n with
        | zero => simp [eventOf]
        | succ m => simpa [eventOf] using ih 0
      | fail k =>
        cases p with
        | ok => simpa [eventOf] using ih (st + 1)
        | fail => simp [eventOf]
    · rw [monitorRun, if_neg h]
      simp

/-- Event trace of a Session whose setup succeeded. -/
lemma sessionEvents_true (steps : List SessionStep) :
    sessionEvents true steps =
      1 :: (match runMonitor 0 steps with
        | MonitorResult.exited _ => [-1]
        | MonitorResult.running _ => []) := by
  unfold sessionEvents sessionActions runMonitor
  simp only [if_pos]
  rw [List.filterMap_cons, List.filterMap_cons, List.filterMap_append,
    monitorRun_no_events steps 0]
  cases hm : (monitorRun 0 steps).2 <;> simp [eventOf]

/-- Event trace of a Session whose setup panicked before `tx.send(1)`. -/
lemma sessionEvents_false (steps : List SessionStep) :
    sessionEvents false steps = [] := by
  simp [sessionEvents, sessionActions]

/-- Every Session event trace is `[]`, `[1]`, or `[1, -1]`: a prefix of
the paired `+1`/`-1` sequence.  This is what justifies the three-phase
abstraction `Phase` used by the whole-system model. -/
lemma sessionEvents_cases (b : Bool) (steps : List SessionStep) :
    sessionEvents b steps = [] ∨ sessionEvents b steps = [1] ∨
      sessionEvents b steps = [1, -1] := by
  cases b with
  | false => exact Or.inl (sessionEvents_false steps)
  | true =>
    rw [sessionEvents_true steps]
    cases runMonitor 0 steps <;> simp

/-- `countActive` distributes over list append. -/
lemma countActive_append (l₁ l₂ : List Phase) :
    countActive (l₁ ++ l₂) = countActive l₁ + countActive l₂ := by
  induction l₁ with
  | nil => simp [countActive]
  | cons a l ih =>
    cases a with
    | silent => simp [countActive, ih]
    | plusEmitted =>
      simp [countActive, ih]
      omega
    | minusEmitted => simp [countActive, ih]

/-- Sign characterisation of the decision table. -/
lemma coordAction_spec (n : Int) :
    (n = 0 → coordAction n = CoordAction.release) ∧
    (0 < n → coordAction n = CoordAction.acquire) ∧
    (n < 0 → coordAction n = CoordAction.fatalNegative) := by
  refine ⟨fun h => by simp [coordAction, h], fun h => ?_, fun h => ?_⟩
  · unfold coordAction
    rw [if_neg (by omega), if_pos h]
  · unfold coordAction
    rw [if_neg (by omega), if_neg (by omega)]

/-- A filesystem error during event processing is always fatal. -/
lemma processEvent_err (s : CoordState) (e : Int) :
    processEvent s e FsOutcome.err = CoordOutcome.fatal := by
  simp only [processEvent]
  cases coordAction (s.num_clients + e) <;> rfl

/-- Running the monitoring loop through idle cycles up to the staleness
bound makes it exit with cause `stale`, leaving any further input
unconsumed. -/
lemma monitorRun_idle_exhausts (rest : List SessionStep) :
    ∀ k st, st + k = 6 →
      (monitorRun st (List.replicate k idleCycle ++ rest)).2 =
        MonitorResult.exited ExitCause.stale := by
  intro k
  induction k with
  | zero =>
    intro st hst
    have h6 : st = 6 := by omega
    subst h6
    rw [List.replicate_zero, List.nil_append, monitorRun.eq_def,
      if_neg (by omega)]
  | succ n ih =>
    intro st hst
    have hle : st ≤ 5 := by omega
    rw [List.replicate_succ, List.cons_append, monitorRun_cons st hle]
    show (monitorRun (st + 1) (List.replicate n idleCycle ++ rest)).2 =
      MonitorResult.exited ExitCause.stale
    exact ih (st + 1) (by omega)

/-! ## Claim theorems -/

/-- C1: for every reachable state of the system — the Coordinator
consuming any interleaving of the events produced by the Sessions — the
Presence Count equals the number of Sessions that have emitted `+1` but
not yet emitted `-1`, and it is never negative. -/
theorem presence_count_invariant (s : SysState) (h : Reachable s) :
    s.count = (countActive s.phases : Int) ∧ 0 ≤ s.count := by
  induction h with
  | refl => simp [initState, countActive]
  | tail _ hstep ih =>
    cases hstep with
    | spawn l c =>
      simp only [countActive_append, countActive] at ih ⊢
      push_cast at ih ⊢
      omega
    | consumePlus l₁ l₂ c =>
      simp only [countActive_append, countActive] at ih ⊢
      push_cast at ih ⊢
      omega
    | consumeMinus l₁ l₂ c =>
      simp only [countActive_append, countActive] at ih ⊢
      push_cast at ih ⊢
      omega

/-- C1 witness: the state after one spawn and one consumed `+1`. -/
theorem presence_count_invariant_witness :
    (⟨[Phase.plusEmitted], 1⟩ : SysState).count =
        (countActive [Phase.plusEmitted] : Int) ∧
      0 ≤ (⟨[Phase.plusEmitted], 1⟩ : SysState).count :=
  presence_count_invariant ⟨[Phase.plusEmitted], 1⟩
    (Relation.ReflTransGen.tail
      (Relation.ReflTransGen.tail Relation.ReflTransGen.refl
        (SysStep.spawn [] 0))
      (SysStep.consumePlus [] [] 0))

/-- C2 is a code bug: the claimed invariant "sentinel present iff count
> 0 after every fully processed event" is unrealizable, because the
acquire arm's open call always fails and its unwrap panics.  At the
failing input — the very first `+1`, making the count positive — the
Coordinator aborts instead of completing the event, whatever the
filesystem would have answered; and any event that *is* fully processed
leaves the sentinel absent, so it is never present. -/
theorem wakelock_never_created (fs : FsOutcome) :
    processEvent { num_clients := 0, wakelock := false } 1 fs =
        CoordOutcome.fatal ∧
      (∀ s e s2, processEvent s e fs = CoordOutcome.next s2 →
        s2.wakelock = false) := by
  constructor
  · rfl
  · intro s e s2 h
    simp only [processEvent] at h
    rcases hca : coordAction (s.num_clients + e) with _ | _ | _ <;>
        rw [hca] at h
    · cases fs with
      | ok =>
        injection h with h2
        subst h2
        rfl
      | err => exact absurd h (by simp)
    · exact absurd h (by simp)
    · exact absurd h (by simp)

/-- C2 witness: the first client's `+1` aborts the process, and the one
kind of event that can complete (a `-1` reaching count 0) leaves the
sentinel absent. -/
theorem wakelock_never_created_witness :
    processEvent { num_clients := 0, wakelock := false } 1 FsOutcome.ok =
        CoordOutcome.fatal ∧
      (⟨0, false⟩ : CoordState).wakelock = false :=
  ⟨(wakelock_never_created FsOutcome.ok).1,
    (wakelock_never_created FsOutcome.ok).2 ⟨1, false⟩ (-1) ⟨0, false⟩
      (by decide)⟩

/-- C4 is a code bug: the `match num_clients` does select the acquire
arm on every positive new count, but that arm is not an idempotent
`acquire()` — its create-without-access-mode open deterministically
fails and the unwrap aborts the process, on every positive-count event,
whatever the previous state and whatever the filesystem would answer. -/
theorem acquire_arm_always_aborts (s : CoordState) (e : Int)
    (fs : FsOutcome) (h : 0 < s.num_clients + e) :
    coordAction (s.num_clients + e) = CoordAction.acquire ∧
      processEvent s e fs = CoordOutcome.fatal := by
  refine ⟨(coordAction_spec (s.num_clients + e)).2.1 h, ?_⟩
  simp only [processEvent]
  rw [(coordAction_spec (s.num_clients + e)).2.1 h]

/-- C4 witness: the 1-to-2 event — exactly the case the claim calls an
idempotent re-acquire — selects the acquire arm and aborts. -/
theorem acquire_arm_always_aborts_witness :
    coordAction ((⟨1, true⟩ : CoordState).num_clients + 1) =
        CoordAction.acquire ∧
      processEvent ⟨1, true⟩ 1 FsOutcome.ok = CoordOutcome.fatal :=
  acquire_arm_always_aborts ⟨1, true⟩ 1 FsOutcome.ok (by decide)

/-- C5: with every read ending in an idle timeout and every probe write
succeeding, staleness values 0 through 5 keep the monitoring loop going
(after `k ≤ 5` idle cycles it is still running with staleness `k`), and
the 6th consecutive idle cycle makes it exit — without consuming any
further input. -/
theorem timeout_accumulation :
    (∀ k, k ≤ 5 → runMonitor 0 (List.replicate k idleCycle) =
      MonitorResult.running k) ∧
    (∀ rest, runMonitor 0 (List.replicate 6 idleCycle ++ rest) =
      MonitorResult.exited ExitCause.stale) := by
  constructor
  · intro k hk
    interval_cases k <;> decide
  · intro rest
    exact monitorRun_idle_exhausts rest 6 0 (by omega)

/-- C5 witness: 5 idle cycles leave the loop running. -/
theorem timeout_accumulation_witness :
    runMonitor 0 (List.replicate 5 idleCycle) = MonitorResult.running 5 :=
  timeout_accumulation.1 5 (by decide)

/-- C8: in the monitoring loop, a read returning 0 bytes terminates the
Session immediately, for every in-loop staleness value (0 through 5) and
whatever input would have followed. -/
theorem zero_read_terminates (st : Nat) (h : st ≤ 5) (w : WriteOutcome)
    (rest : List SessionStep) :
    runMonitor st (⟨ReadOutcome.bytes 0, w⟩ :: rest) =
      MonitorResult.exited ExitCause.peerClosed := by
  unfold runMonitor
  rw [monitorRun_cons st h]

/-- C8 witness: staleness 3, peer closes. -/
theorem zero_read_terminates_witness :
    runMonitor 3 [⟨ReadOutcome.bytes 0, WriteOutcome.ok⟩] =
      MonitorResult.exited ExitCause.peerClosed :=
  zero_read_terminates 3 (by decide) WriteOutcome.ok []

/-- C9: every read error is handled identically regardless of its kind —
the Session probes, continues with staleness incremented when the probe
write succeeds, and terminates (cause: failed probe) when it fails; a
read error never exits the loop directly. -/
theorem read_error_handling_uniform (st : Nat) (h : st ≤ 5) (k k2 : Nat)
    (w : WriteOutcome) (rest : List SessionStep) :
    monitorRun st (⟨ReadOutcome.fail k, w⟩ :: rest) =
      monitorRun st (⟨ReadOutcome.fail k2, w⟩ :: rest) ∧
    monitorRun st (⟨ReadOutcome.fail k, WriteOutcome.ok⟩ :: rest) =
      (SessAction.readAttempt :: SessAction.probe ::
          (monitorRun (st + 1) rest).1,
        (monitorRun (st + 1) rest).2) ∧
    monitorRun st (⟨ReadOutcome.fail k, WriteOutcome.fail⟩ :: rest) =
      ([SessAction.readAttempt, SessAction.probe],
        MonitorResult.exited ExitCause.probeFailed) := by
  refine ⟨?_, ?_, ?_⟩
  · rw [monitorRun_cons st h, monitorRun_cons st h]
  · rw [monitorRun_cons st h]
  · rw [monitorRun_cons st h]

/-- C9 witness: at staleness 0, a kind-0 and a kind-7 read error behave
alike, probing and continuing. -/
theorem read_error_handling_uniform_witness :
    monitorRun 0 [⟨ReadOutcome.fail 0, WriteOutcome.ok⟩] =
      monitorRun 0 [⟨ReadOutcome.fail 7, WriteOutcome.ok⟩] ∧
    monitorRun 0 [⟨ReadOutcome.fail 0, WriteOutcome.ok⟩] =
      (SessAction.readAttempt :: SessAction.probe ::
          (monitorRun 1 []).1,
        (monitorRun 1 []).2) ∧
    monitorRun 0 [⟨ReadOutcome.fail 0, WriteOutcome.fail⟩] =
      ([SessAction.readAttempt, SessAction.probe],
        MonitorResult.exited ExitCause.probeFailed) :=
  read_error_handling_uniform 0 (by decide) 0 7 WriteOutcome.ok []

/-- C10: once the Listener has returned and every Session has finished,
no `Sender` handle remains, so a blocking `recv` on the drained channel
reports disconnection instead of blocking forever, and the Coordinator's
`unwrap` then aborts the process. -/
theorem closed_channel_aborts (s : CoordState) (fs : FsOutcome) :
    recvResult [] (activeSenders false 0) =
        some RecvOutcome.disconnected ∧
      coordLoopStep s RecvOutcome.disconnected fs = CoordOutcome.fatal :=
  ⟨rfl, rfl⟩

/-- C3 counterexample: the claim demands exactly one `+1` and one `-1`
from every Session execution, including one whose greeting/setup fails —
but such a Session panics before `tx.send(1)` and emits no events at
all. -/
theorem session_pairing_counterexample :
    ¬ ((sessionEvents false []).count 1 = 1 ∧
        (sessionEvents false []).count (-1) = 1) := by
  decide

/-- C3 amended: a Session whose setup (greeting included) succeeds and
whose monitoring loop terminates emits exactly `[+1, -1]`; one whose loop
is still running has emitted exactly `[+1]` so far; one whose setup
failed emits nothing. -/
theorem session_pairing_amended (steps : List SessionStep) :
    (∀ c, runMonitor 0 steps = MonitorResult.exited c →
      sessionEvents true steps = [1, -1]) ∧
    (∀ st, runMonitor 0 steps = MonitorResult.running st →
      sessionEvents true steps = [1]) ∧
    sessionEvents false steps = [] := by
  refine ⟨fun c hc => ?_, fun st hst => ?_, sessionEvents_false steps⟩
  · rw [sessionEvents_true steps, hc]
  · rw [sessionEvents_true steps, hst]

/-- C3 witness: a Session whose peer closes after the greeting emits
exactly `[+1, -1]`. -/
theorem session_pairing_amended_witness :
    sessionEvents true [⟨ReadOutcome.bytes 0, WriteOutcome.ok⟩] = [1, -1] :=
  (session_pairing_amended [⟨ReadOutcome.bytes 0, WriteOutcome.ok⟩]).1
    ExitCause.peerClosed (by decide)

/-- C6 counterexample: at startup, a `remove_file` failure other than
"not found" (sentinel present, removal failing externally) does not
abort the process — the result is discarded — and the stale sentinel
remains, so the Lock Resource is not forced to the released state. -/
theorem startup_cleanup_counterexample :
    ¬ ((removeFileResult true true = RemoveResult.errOther →
          (startupCoordinator true true).aborted = true) ∧
        (startupCoordinator true true).wakelock = false) := by
  decide

/-- C6 amended: the startup cleanup discards the removal result
entirely — every failure, "not found" or otherwise, is treated as
success and startup never aborts; the count starts at 0; the sentinel is
absent after startup iff it was already absent or the removal succeeded.
Outside startup, a Lock Resource error during event processing is
fatal. -/
theorem startup_cleanup_amended (present externalFail : Bool) :
    (startupCoordinator present externalFail).aborted = false ∧
    (startupCoordinator present externalFail).num_clients = 0 ∧
    ((startupCoordinator present externalFail).wakelock = false ↔
      (present = false ∨ externalFail = false)) ∧
    (∀ s e, processEvent s e FsOutcome.err = CoordOutcome.fatal) := by
  refine ⟨rfl, rfl, ?_, fun s e => processEvent_err s e⟩
  cases present <;> cases externalFail <;> decide

/-- C7: a Session never attempts a read before its `+1` event: in every
action trace, any read attempt is preceded by both the greeting and the
`+1` send. -/
theorem plus_event_before_first_read (b : Bool) (steps : List SessionStep)
    (pre post : List SessAction)
    (h : sessionActions b steps =
      pre ++ SessAction.readAttempt :: post) :
    SessAction.greet ∈ pre ∧ SessAction.sendEvent 1 ∈ pre := by
  cases b with
  | false =>
    exfalso
    simp [sessionActions] at h
  | true =>
    rw [show sessionActions true steps =
        SessAction.greet :: SessAction.sendEvent 1 ::
          ((monitorRun 0 steps).1 ++
            (match (monitorRun 0 steps).2 with
              | MonitorResult.exited _ => [SessAction.sendEvent (-1)]
              | MonitorResult.running _ => [])) from rfl] at h
    rcases pre with _ | ⟨a, pre⟩
    · rw [List.nil_append] at h
      obtain ⟨ha, -⟩ := List.cons_eq_cons.mp h
      exact absurd ha (by simp)
    · rw [List.cons_append] at h
      obtain ⟨ha, h2⟩ := List.cons_eq_cons.mp h
      rcases pre with _ | ⟨a2, pre⟩
      · rw [List.nil_append] at h2
        obtain ⟨ha2, -⟩ := List.cons_eq_cons.mp h2
        exact absurd ha2 (by simp)
      · rw [List.cons_append] at h2
        obtain ⟨ha2, -⟩ := List.cons_eq_cons.mp h2
        subst ha
        subst ha2
        simp

/-- C7 witness: after greeting and `+1`, the first read attempt of a
closing peer's Session is preceded by both. -/
theorem plus_event_before_first_read_witness :
    SessAction.greet ∈ [SessAction.greet, SessAction.sendEvent 1] ∧
      SessAction.sendEvent 1 ∈ [SessAction.greet, SessAction.sendEvent 1] :=
  plus_event_before_first_read true [⟨ReadOutcome.bytes 0, WriteOutcome.ok⟩]
    [SessAction.greet, SessAction.sendEvent 1] [SessAction.sendEvent (-1)]
    (by decide)
